import Mathlib

/-!
Verification of the solar desalination simulator
(source files `simulacion_desalinizador_modificable.py`,
`parametros_configurables.py`, `actualizar_datos_reporte.py`).

The Python source is shallowly embedded: float computations become
real-number computations, NumPy vectorised column operations become per-row
functions mapped over lists, pandas DataFrames become lists of records, and
Python exceptions become `Except` results.  Gaussian draws from the globally
seeded NumPy generator are modelled by an arbitrary standard-normal stream
`gauss : seed → draw index → value`; `ModeloClimatico.__init__` reseeds the
global generator with 42 before any draw, which is reflected by every draw
going through `gauss 42`.
-/

noncomputable section

namespace Desal

/-- Block `DIMENSIONES` of `parametros_configurables.py`. -/
structure Dimensiones where
  largo : ℝ
  ancho : ℝ
  altura : ℝ

/-- Block `PROPIEDADES_TERMICAS` of `parametros_configurables.py`. -/
structure PropiedadesTermicas where
  absorptividad : ℝ
  angulo_incidencia : ℝ
  material_caja : String

/-- Block `PROPIEDADES_AGUA` of `parametros_configurables.py`. -/
structure PropiedadesAgua where
  cp_agua : ℝ
  calor_latente_vaporizacion : ℝ
  temp_inicial : ℝ
  temp_ebullicion : ℝ

/-- Block `CONDICIONES_OPERACION` of `parametros_configurables.py`. -/
structure CondicionesOperacion where
  horas_radiacion_util : ℝ
  masa_agua : ℝ
  hemisferio : String
  ubicacion_latitud : ℝ

/-- Block `PARAMETROS_SIMULACION` of `parametros_configurables.py`. -/
structure ParametrosSimulacion where
  radiacion_base : ℝ
  amplitud_variacion : ℝ
  variabilidad_diaria : ℝ
  factor_eficiencia_alta : ℝ
  factor_eficiencia_media : ℝ
  factor_eficiencia_baja : ℝ
  factor_eficiencia_minima : ℝ

/-- The configuration dictionary returned by `cargar_parametros()`. -/
structure Config where
  dimensiones : Dimensiones
  propiedades_termicas : PropiedadesTermicas
  propiedades_agua : PropiedadesAgua
  conductividades_termicas : List (String × ℝ)
  condiciones_operacion : CondicionesOperacion
  parametros_simulacion : ParametrosSimulacion

/-- Model of Python `dict.get(key, default)` on the conductivity table. -/
def lookupD (l : List (String × ℝ)) (k : String) (d : ℝ) : ℝ :=
  match l.find? (fun q => q.1 == k) with
  | some q => q.2
  | none => d

/-- All attributes assigned by `ParametrosDesalinizador.__init__`
(lines 25-115 of `simulacion_desalinizador_modificable.py`). -/
structure Parametros where
  largo : ℝ
  ancho : ℝ
  altura : ℝ
  area_captacion : ℝ
  volumen : ℝ
  volumen_litros : ℝ
  area_base : ℝ
  area_tapa : ℝ
  area_paredes : ℝ
  area_total : ℝ
  absorptividad : ℝ
  emisividad : ℝ
  transmisividad_vidrio : ℝ
  angulo_incidencia : ℝ
  cos_angulo : ℝ
  material_caja : String
  sigma : ℝ
  conductividad_material : ℝ
  conductividad_aislamiento : ℝ
  espesor_material : ℝ
  espesor_aislamiento : ℝ
  cp_agua : ℝ
  calor_latente_vaporizacion : ℝ
  temp_inicial : ℝ
  temp_ebullicion : ℝ
  delta_T : ℝ
  masa_agua : ℝ
  profundidad_agua : ℝ
  horas_radiacion_util : ℝ
  segundos_radiacion_util : ℝ
  hemisferio : String
  latitud : ℝ
  h_conveccion_natural : ℝ
  h_conveccion_agua : ℝ
  h_condensacion : ℝ
  h_evaporacion : ℝ
  R_conduccion : ℝ
  R_aislamiento : ℝ
  energia_calentamiento : ℝ
  energia_evaporacion : ℝ
  energia_total_requerida : ℝ
  energia_por_kg : ℝ
  param_sim : ParametrosSimulacion
  factor_alto : ℝ
  factor_medio : ℝ
  factor_bajo : ℝ
  factor_minimo : ℝ

/-- The field computations of `ParametrosDesalinizador.__init__`, line by line.
The efficiency factors 0.85 / 0.65 / 0.45 / 0.25 are the hard-coded
`factores_eficiencia` dictionary of lines 110-115 (the `factor_eficiencia_*`
entries of the configuration are not consulted by this class). -/
def mkParametros (c : Config) : Parametros :=
  { largo := c.dimensiones.largo
    ancho := c.dimensiones.ancho
    altura := c.dimensiones.altura
    area_captacion := c.dimensiones.largo * c.dimensiones.ancho
    volumen := c.dimensiones.largo * c.dimensiones.ancho * c.dimensiones.altura
    volumen_litros := c.dimensiones.largo * c.dimensiones.ancho * c.dimensiones.altura * 1000
    area_base := c.dimensiones.largo * c.dimensiones.ancho
    area_tapa := c.dimensiones.largo * c.dimensiones.ancho
    area_paredes := 2 * (c.dimensiones.largo + c.dimensiones.ancho) * c.dimensiones.altura
    area_total := c.dimensiones.largo * c.dimensiones.ancho +
      c.dimensiones.largo * c.dimensiones.ancho +
      2 * (c.dimensiones.largo + c.dimensiones.ancho) * c.dimensiones.altura
    absorptividad := c.propiedades_termicas.absorptividad
    emisividad := 0.95
    transmisividad_vidrio := 0.9
    angulo_incidencia := c.propiedades_termicas.angulo_incidencia
    cos_angulo := Real.cos (c.propiedades_termicas.angulo_incidencia * Real.pi / 180)
    material_caja := c.propiedades_termicas.material_caja
    sigma := 5.67e-8
    conductividad_material :=
      lookupD c.conductividades_termicas c.propiedades_termicas.material_caja 205
    conductividad_aislamiento := 0.04
    espesor_material := 0.0025
    espesor_aislamiento := 0.02
    cp_agua := c.propiedades_agua.cp_agua
    calor_latente_vaporizacion := c.propiedades_agua.calor_latente_vaporizacion
    temp_inicial := c.propiedades_agua.temp_inicial
    temp_ebullicion := c.propiedades_agua.temp_ebullicion
    delta_T := c.propiedades_agua.temp_ebullicion - c.propiedades_agua.temp_inicial
    masa_agua := c.condiciones_operacion.masa_agua
    profundidad_agua := c.condiciones_operacion.masa_agua /
      (1000 * (c.dimensiones.largo * c.dimensiones.ancho))
    horas_radiacion_util := c.condiciones_operacion.horas_radiacion_util
    segundos_radiacion_util := c.condiciones_operacion.horas_radiacion_util * 3600
    hemisferio := c.condiciones_operacion.hemisferio
    latitud := c.condiciones_operacion.ubicacion_latitud
    h_conveccion_natural := 5.0
    h_conveccion_agua := 50.0
    h_condensacion := 8000
    h_evaporacion := 25.0
    R_conduccion := 0.0025 /
      (lookupD c.conductividades_termicas c.propiedades_termicas.material_caja 205 *
        (2 * (c.dimensiones.largo + c.dimensiones.ancho) * c.dimensiones.altura))
    R_aislamiento := 0.02 /
      (0.04 * (2 * (c.dimensiones.largo + c.dimensiones.ancho) * c.dimensiones.altura))
    energia_calentamiento := c.condiciones_operacion.masa_agua * c.propiedades_agua.cp_agua *
      (c.propiedades_agua.temp_ebullicion - c.propiedades_agua.temp_inicial)
    energia_evaporacion := c.condiciones_operacion.masa_agua *
      c.propiedades_agua.calor_latente_vaporizacion
    energia_total_requerida := c.condiciones_operacion.masa_agua * c.propiedades_agua.cp_agua *
      (c.propiedades_agua.temp_ebullicion - c.propiedades_agua.temp_inicial) +
      c.condiciones_operacion.masa_agua * c.propiedades_agua.calor_latente_vaporizacion
    energia_por_kg := (c.condiciones_operacion.masa_agua * c.propiedades_agua.cp_agua *
      (c.propiedades_agua.temp_ebullicion - c.propiedades_agua.temp_inicial) +
      c.condiciones_operacion.masa_agua * c.propiedades_agua.calor_latente_vaporizacion) /
      c.condiciones_operacion.masa_agua
    param_sim := c.parametros_simulacion
    factor_alto := 0.85
    factor_medio := 0.65
    factor_bajo := 0.45
    factor_minimo := 0.25 }

/-- Python raises `ZeroDivisionError` on float division by exactly zero;
`ParametrosDesalinizador.__init__` divides by `1000 * area_base` (line 84),
by `conductividad_material * area_paredes` (line 131), by
`conductividad_aislamiento * area_paredes` (line 138) and by `masa_agua`
(line 104).  Those are the only statements of the constructor that can raise
on a structurally complete configuration; no validation of sign or magnitude
is performed anywhere. -/
def initParametros (c : Config) : Except String Parametros :=
  if 1000 * (c.dimensiones.largo * c.dimensiones.ancho) = 0 then
    Except.error ("ZeroDivisionError: float division by zero in profundidad_agua")
  else if lookupD c.conductividades_termicas c.propiedades_termicas.material_caja 205 *
      (2 * (c.dimensiones.largo + c.dimensiones.ancho) * c.dimensiones.altura) = 0 then
    Except.error ("ZeroDivisionError: float division by zero in R_conduccion")
  else if 0.04 * (2 * (c.dimensiones.largo + c.dimensiones.ancho) * c.dimensiones.altura) = 0 then
    Except.error ("ZeroDivisionError: float division by zero in R_aislamiento")
  else if c.condiciones_operacion.masa_agua = 0 then
    Except.error ("ZeroDivisionError: float division by zero in energia_por_kg")
  else
    Except.ok (mkParametros c)

/-- The default configuration of `parametros_configurables.py` as returned
by `cargar_parametros()`. -/
def defaultConfig : Config :=
  { dimensiones := { largo := 0.45, ancho := 0.25, altura := 0.30 }
    propiedades_termicas :=
      { absorptividad := 0.9, angulo_incidencia := 30, material_caja := "aluminio" }
    propiedades_agua :=
      { cp_agua := 4186, calor_latente_vaporizacion := 2.26e6,
        temp_inicial := 293, temp_ebullicion := 368 }
    conductividades_termicas := [("acero", 50), ("aluminio", 205), ("pvc", 0.19)]
    condiciones_operacion :=
      { horas_radiacion_util := 6, masa_agua := 2, hemisferio := "norte",
        ubicacion_latitud := 40.0 }
    parametros_simulacion :=
      { radiacion_base := 500, amplitud_variacion := 350, variabilidad_diaria := 100,
        factor_eficiencia_alta := 0.80, factor_eficiencia_media := 0.70,
        factor_eficiencia_baja := 0.55, factor_eficiencia_minima := 0.35 } }

/-- Parameters of the default configuration, as built by
`ParametrosDesalinizador()` with no argument. -/
def defaultParametros : Parametros := mkParametros defaultConfig

/-- `calcular_resistencias_totales` of `ParametrosDesalinizador`
(lines 140-161): series/parallel combination of the wall, glass and
exterior-convection resistances. -/
def R_total (p : Parametros) : ℝ :=
  1 / (1 / (p.R_conduccion + p.R_aislamiento) + 1 / (0.01 / (1.0 * p.area_tapa))) +
    1 / (p.h_conveccion_natural * p.area_total)

/-- Month lengths of 2024 (a leap year), as Python `datetime` sees the days
`datetime(2024, 1, 1) + timedelta(days=i)`. -/
def mesesLongitud2024 : List ℕ := [31, 29, 31, 30, 31, 30, 31, 31, 30, 31, 30, 31]

/-- Gregorian month/day lookup: walk the month-length table.  Models the
`.month` / `.day` attributes of the Python `datetime` values. -/
def mesDiaAux : List ℕ → ℕ → ℕ → ℕ × ℕ
  | [], i, m => (m, i + 1)
  | d :: rest, i, m => if i < d then (m, i + 1) else mesDiaAux rest (i - d) (m + 1)

/-- Month and day-of-month of the i-th day (0-based) of 2024. -/
def mesDia2024 (i : ℕ) : ℕ × ℕ := mesDiaAux mesesLongitud2024 i 1

/-- One row of the DataFrame produced by
`ModeloClimatico.generar_datos_anuales` (lines 318-329).  The `fecha` column
is represented by the day index `diaDelAno` (also the `dia_del_año` column). -/
structure ClimaRow where
  mes : ℕ
  dia : ℕ
  diaDelAno : ℕ
  radiacion_Wm2 : ℝ
  temp_ambiente_C : ℝ
  temp_ambiente_K : ℝ
  humedad_relativa : ℝ
  presion_vapor_Pa : ℝ
  velocidad_viento : ℝ

/-- Model of `np.clip(x, lo, hi)`. -/
def npClip (x lo hi : ℝ) : ℝ := min (max x lo) hi

/-- Model of Python `str.lower()` (character-wise lowercasing; the strings
compared in the source are plain ASCII). -/
def pyLower (s : String) : String := String.mk (s.data.map Char.toLower)

/-- Phase offset of line 251 for the northern hemisphere:
`(mes - 6) * (2π / 12)`. -/
def faseMesNorte (m : ℕ) : ℝ := ((m : ℝ) - 6) * (2 * Real.pi / 12)

/-- One day of `generar_datos_anuales` in the northern-hemisphere branch.
The four `np.random.normal` batches of 365 standard draws are consumed in
source order (irradiance, ambient temperature, humidity, wind), so day `i`
uses stream indices `i`, `365 + i`, `730 + i` and `1095 + i` of the stream
seeded with 42. -/
def mkClimaRow (gauss : ℕ → ℕ → ℝ) (p : Parametros) (i : ℕ) : ClimaRow :=
  let m := (mesDia2024 i).1
  let d := (mesDia2024 i).2
  let fase := faseMesNorte m
  let radiacion := npClip
    (p.param_sim.radiacion_base + p.param_sim.amplitud_variacion * Real.cos fase +
      p.param_sim.variabilidad_diaria * gauss 42 i) 100 950
  let temp_ambiente := 15 - 12 * Real.cos fase + 3 * gauss 42 (365 + i)
  let humedad := npClip (60 + 20 * Real.cos fase + 10 * gauss 42 (730 + i)) 30 95
  let presion_sat := 610.78 * Real.exp (17.27 * temp_ambiente / (temp_ambiente + 237.3))
  let viento := max 0.5 (2.0 + 1.0 * Real.sin fase + 0.8 * gauss 42 (1095 + i))
  { mes := m
    dia := d
    diaDelAno := i
    radiacion_Wm2 := radiacion
    temp_ambiente_C := temp_ambiente
    temp_ambiente_K := temp_ambiente + 273.15
    humedad_relativa := humedad
    presion_vapor_Pa := humedad * presion_sat / 100
    velocidad_viento := viento }

/-- `ModeloClimatico.generar_datos_anuales` (lines 233-329).  In the
northern-hemisphere branch all 365 rows are produced.  In every other
branch (`hemisferio` ≠ 'norte' after lowercasing, in particular the
documented legal value 'sur') line 291 reads the local `humedad_base`,
which is only assigned inside the `norte` branch of line 285, so Python
raises `UnboundLocalError` and no DataFrame is returned. -/
def generarDatosAnuales (gauss : ℕ → ℕ → ℝ) (p : Parametros) :
    Except String (List ClimaRow) :=
  if pyLower p.hemisferio = "norte" then
    Except.ok ((List.range 365).map (mkClimaRow gauss p))
  else
    Except.error
      ("UnboundLocalError: local variable humedad_base referenced before assignment")

/-- Column `temp_agua_K` (line 405): ambient plus `0.08` K per W/m². -/
def tempAguaK (c : ClimaRow) : ℝ := c.temp_ambiente_K + 0.08 * c.radiacion_Wm2

/-- Column `temp_vidrio_K` (line 408). -/
def tempVidrioK (c : ClimaRow) : ℝ :=
  c.temp_ambiente_K + 0.3 * (tempAguaK c - c.temp_ambiente_K)

/-- Column `temp_base_K` (line 411). -/
def tempBaseK (c : ClimaRow) : ℝ := tempAguaK c + 2

/-- `calcular_coef_conveccion_viento` (line 381): `5.7 + 3.8 v`. -/
def hConvExt (c : ClimaRow) : ℝ := 5.7 + 3.8 * c.velocidad_viento

/-- Column `perdida_conv_vidrio` (lines 437-438). -/
def perdidaConvVidrio (p : Parametros) (c : ClimaRow) : ℝ :=
  0.15 * hConvExt c * p.area_tapa * (tempVidrioK c - c.temp_ambiente_K)

/-- Column `temp_cielo_K` (line 442). -/
def tempCieloK (c : ClimaRow) : ℝ := c.temp_ambiente_K - 6

/-- Column `perdida_rad_vidrio` (lines 443-445). -/
def perdidaRadVidrio (p : Parametros) (c : ClimaRow) : ℝ :=
  0.15 * p.emisividad * p.sigma * p.area_tapa * (tempVidrioK c ^ 4 - tempCieloK c ^ 4)

/-- Column `perdida_conv_paredes` (lines 448-449). -/
def perdidaConvParedes (p : Parametros) (c : ClimaRow) : ℝ :=
  0.15 * hConvExt c * p.area_paredes * (tempAguaK c - c.temp_ambiente_K)

/-- Column `perdida_conduccion` (lines 453-455), with the resistance
inflated by the factor 8. -/
def perdidaConduccion (p : Parametros) (c : ClimaRow) : ℝ :=
  0.15 * (tempAguaK c - c.temp_ambiente_K) / (R_total p * 8)

/-- Column `perdida_total` (lines 458-459). -/
def perdidaTotal (p : Parametros) (c : ClimaRow) : ℝ :=
  perdidaConvVidrio p c + perdidaRadVidrio p c + perdidaConvParedes p c +
    perdidaConduccion p c

/-- Column `energia_solar` (lines 474-475). -/
def energiaSolar (p : Parametros) (c : ClimaRow) : ℝ :=
  c.radiacion_Wm2 * p.cos_angulo * p.absorptividad * p.area_captacion *
    p.segundos_radiacion_util

/-- Column `energia_perdida` (line 478). -/
def energiaPerdida (p : Parametros) (c : ClimaRow) : ℝ :=
  perdidaTotal p c * p.segundos_radiacion_util

/-- Column `energia_util` (lines 483-484): losses capped at 65% of the
solar energy, then floored at zero. -/
def energiaUtil (p : Parametros) (c : ClimaRow) : ℝ :=
  max 0 (energiaSolar p c - min (energiaPerdida p c) (0.65 * energiaSolar p c))

/-- The `np.where` chain of lines 491-494 selecting the efficiency band. -/
def eficienciaBanda (p : Parametros) (c : ClimaRow) : ℝ :=
  if 800 ≤ c.radiacion_Wm2 then p.factor_alto
  else if 600 ≤ c.radiacion_Wm2 then p.factor_medio
  else if 400 ≤ c.radiacion_Wm2 then p.factor_bajo
  else p.factor_minimo

/-- Ambient-temperature scaling factor of line 498:
`np.clip((temp_ambiente_C + 10) / 40, 0.5, 1.2)`. -/
def factorTemp (c : ClimaRow) : ℝ := npClip ((c.temp_ambiente_C + 10) / 40) 0.5 1.2

/-- Applied system efficiency of line 499. -/
def eficienciaSistema (p : Parametros) (c : ClimaRow) : ℝ :=
  eficienciaBanda p c * factorTemp c

/-- Column `energia_calentamiento` (lines 502-503). -/
def energiaCalentamientoDia (p : Parametros) (c : ClimaRow) : ℝ :=
  p.masa_agua * p.cp_agua * (tempAguaK c - p.temp_inicial)

/-- Column `energia_evaporacion` (line 506). -/
def energiaEvaporacionDia (p : Parametros) (c : ClimaRow) : ℝ :=
  max 0 (energiaUtil p c - energiaCalentamientoDia p c)

/-- Theoretical evaporated mass of line 509. -/
def masaEvaporadaTeorica (p : Parametros) (c : ClimaRow) : ℝ :=
  energiaEvaporacionDia p c / p.calor_latente_vaporizacion

/-- Column `masa_evaporada` after the 25%-of-water-mass cap of
lines 512-516, before the noise floor. -/
def masaEvaporadaCap (p : Parametros) (c : ClimaRow) : ℝ :=
  min (masaEvaporadaTeorica p c * eficienciaSistema p c) (p.masa_agua * 0.25)

/-- Column `masa_evaporada` after the noise-floor assignment of line 519:
values below 0.001 kg are set to exactly 0. -/
def masaEvaporada (p : Parametros) (c : ClimaRow) : ℝ :=
  if masaEvaporadaCap p c < 0.001 then 0 else masaEvaporadaCap p c

/-- Column `GOR` (lines 525-527): guarded ratio of evaporation energy to
solar energy. -/
def gorDia (p : Parametros) (c : ClimaRow) : ℝ :=
  if 0 < energiaSolar p c then energiaEvaporacionDia p c / energiaSolar p c else 0

/-- Column `eficiencia_termica` (lines 530-532). -/
def eficienciaTermicaDia (p : Parametros) (c : ClimaRow) : ℝ :=
  if 0 < energiaSolar p c then energiaUtil p c / energiaSolar p c else 0

/-- Row after `calcular_temperatura_sistema` added its columns. -/
structure TempRow extends ClimaRow where
  temp_vidrio_K : ℝ
  temp_agua_K : ℝ
  temp_base_K : ℝ
  temp_agua_C : ℝ
  temp_vidrio_C : ℝ
  temp_base_C : ℝ

/-- `ModeloTermico.calcular_temperatura_sistema` (lines 383-418).  The
method copies the incoming DataFrame (`df = datos_climaticos.copy()`,
line 394) and returns the extended copy; the caller's climate table is
left untouched. -/
def calcularTemperaturaSistema (l : List ClimaRow) : List TempRow :=
  l.map fun c =>
    { toClimaRow := c
      temp_vidrio_K := tempVidrioK c
      temp_agua_K := tempAguaK c
      temp_base_K := tempBaseK c
      temp_agua_C := tempAguaK c - 273.15
      temp_vidrio_C := tempVidrioK c - 273.15
      temp_base_C := tempBaseK c - 273.15 }

/-- Row after `calcular_perdidas_termicas` added its columns. -/
structure PerdidasRow extends TempRow where
  h_conv_ext : ℝ
  perdida_conv_vidrio : ℝ
  temp_cielo_K : ℝ
  perdida_rad_vidrio : ℝ
  perdida_conv_paredes : ℝ
  perdida_conduccion : ℝ
  perdida_total : ℝ

/-- `ModeloTermico.calcular_perdidas_termicas` (lines 420-461); the columns
read by this stage are exactly the values written by the previous stage, so
they are recomputed from the underlying climate row. -/
def calcularPerdidasTermicas (p : Parametros) (l : List TempRow) : List PerdidasRow :=
  l.map fun r =>
    { toTempRow := r
      h_conv_ext := hConvExt r.toClimaRow
      perdida_conv_vidrio := perdidaConvVidrio p r.toClimaRow
      temp_cielo_K := tempCieloK r.toClimaRow
      perdida_rad_vidrio := perdidaRadVidrio p r.toClimaRow
      perdida_conv_paredes := perdidaConvParedes p r.toClimaRow
      perdida_conduccion := perdidaConduccion p r.toClimaRow
      perdida_total := perdidaTotal p r.toClimaRow }

/-- Row of the final daily result table. -/
structure ResultRow extends PerdidasRow where
  energia_solar : ℝ
  energia_perdida : ℝ
  energia_util : ℝ
  energia_calentamiento : ℝ
  energia_evaporacion : ℝ
  masa_evaporada : ℝ
  produccion_litros : ℝ
  GOR : ℝ
  eficiencia_termica : ℝ

/-- `ModeloTermico.calcular_masa_evaporada` (lines 463-534). -/
def calcularMasaEvaporada (p : Parametros) (l : List PerdidasRow) : List ResultRow :=
  l.map fun r =>
    { toPerdidasRow := r
      energia_solar := energiaSolar p r.toClimaRow
      energia_perdida := energiaPerdida p r.toClimaRow
      energia_util := energiaUtil p r.toClimaRow
      energia_calentamiento := energiaCalentamientoDia p r.toClimaRow
      energia_evaporacion := energiaEvaporacionDia p r.toClimaRow
      masa_evaporada := masaEvaporada p r.toClimaRow
      produccion_litros := masaEvaporada p r.toClimaRow
      GOR := gorDia p r.toClimaRow
      eficiencia_termica := eficienciaTermicaDia p r.toClimaRow }

/-- `simular_desalinizador_anual` (lines 536-597) for a given `Parametros`
value.  `rng` models the state of NumPy's global generator when the function
is entered; `ModeloClimatico.__init__` immediately overwrites it with
`np.random.seed(42)`, so `rng` is never consulted. -/
def simularDesalinizadorAnual (gauss : ℕ → ℕ → ℝ) (rng : ℕ) (p : Parametros) :
    Except String (List ResultRow) :=
  match rng, generarDatosAnuales gauss p with
  | _, Except.error e => Except.error e
  | _, Except.ok dfClima =>
      Except.ok (calcularMasaEvaporada p (calcularPerdidasTermicas p
        (calcularTemperaturaSistema dfClima)))

/-- Days of 2024 that precede month `m`: the day-of-year index at which
month `m` starts. -/
def diasAntes2024 (m : ℕ) : ℕ := (mesesLongitud2024.take (m - 1)).sum

/-- Specification-side characterisation of the Gregorian calendar of 2024:
day-of-year index `k` (0-based) falls on day `d` of month `m`. -/
def isGregorianDate2024 (k m d : ℕ) : Prop :=
  1 ≤ m ∧ m ≤ 12 ∧ 1 ≤ d ∧ d ≤ mesesLongitud2024.getD (m - 1) 0 ∧
    k = diasAntes2024 m + (d - 1)

instance (k m d : ℕ) : Decidable (isGregorianDate2024 k m d) := by
  unfold isGregorianDate2024; infer_instance

/-- Monthly production aggregate: `df_resultados.groupby('mes')` with
`'produccion_litros': 'sum'` (lines 623-636). -/
def prodMes (l : List ResultRow) (m : ℕ) : ℝ :=
  ((l.filter (fun r => r.mes == m)).map (fun r => r.produccion_litros)).sum

/-- The set of month keys of `df_mensual` (`groupby` keys are the distinct
values of the `mes` column). -/
def mesesDF (l : List ResultRow) : Finset ℕ := (l.map (fun r => r.mes)).toFinset

/-- Season label assigned to a monthly row by the chained `.loc` writes of
lines 798-802: rows whose month is in no season list keep the initial
empty string. -/
def estacionOf (m : ℕ) : String :=
  if m = 12 ∨ m = 1 ∨ m = 2 then "Invierno"
  else if m = 3 ∨ m = 4 ∨ m = 5 then "Primavera"
  else if m = 6 ∨ m = 7 ∨ m = 8 then "Verano"
  else if m = 9 ∨ m = 10 ∨ m = 11 then "Otoño"
  else ""

/-- The `estaciones_base` list of line 819. -/
def estacionesBase : List String := ["Invierno", "Primavera", "Verano", "Otoño"]

/-- Season keys of `df_estacion` after the backfill loop of lines 822-835:
the seasons present in the grouped data plus every absent base season
(appended with zero-valued rows). -/
def estacionesDF (l : List ResultRow) : Finset String :=
  (mesesDF l).image estacionOf ∪ estacionesBase.toFinset

/-- Production of one seasonal row of `df_estacion`
(`df_mensual.groupby('estacion')` with `'produccion_litros': 'sum'`,
lines 805-813); a backfilled season has production 0. -/
def prodEstacion (l : List ResultRow) (s : String) : ℝ :=
  ∑ m in (mesesDF l).filter (fun m => estacionOf m = s), prodMes l m

/-- Mean of a pandas Series. -/
def listMean (l : List ℝ) : ℝ := l.sum / l.length

/-- Series centred on its mean. -/
def centrada (l : List ℝ) : List ℝ := l.map (fun x => x - listMean l)

/-- Sum of squared deviations of a series. -/
def sumaCuadrados (l : List ℝ) : ℝ := ((centrada l).map (fun x => x ^ 2)).sum

/-- Sum of products of paired deviations of two series. -/
def sumaProductos (xs ys : List ℝ) : ℝ :=
  (((centrada xs).zip (centrada ys)).map (fun q => q.1 * q.2)).sum

/-- Model of pandas `Series.corr` (Pearson), used at lines 1046, 1102 and in
`actualizar_datos_reporte.py` line 33: `cov / (std · std)`.  When either
series has zero variance the float computation divides 0 by 0 and pandas
returns NaN; NaN is modelled as `none`.  The sample-size normalisation
`n - 1` cancels between numerator and denominator and is omitted. -/
def pearsonCorr (xs ys : List ℝ) : Option ℝ :=
  if sumaCuadrados xs = 0 ∨ sumaCuadrados ys = 0 then none
  else some (sumaProductos xs ys / Real.sqrt (sumaCuadrados xs * sumaCuadrados ys))

/-- Configuration equal to the default one except for the southern
hemisphere, a value documented as legal in `parametros_configurables.py`
line 43 (`'norte' o 'sur'`). -/
def configSur : Config :=
  { defaultConfig with
    condiciones_operacion :=
      { defaultConfig.condiciones_operacion with hemisferio := "sur" } }

/-- A non-physical configuration: negative length (hence negative areas and
volume) and boiling temperature below the initial temperature. -/
def badConfig : Config :=
  { defaultConfig with
    dimensiones := { largo := -1, ancho := 0.25, altura := 0.30 }
    propiedades_agua :=
      { defaultConfig.propiedades_agua with temp_ebullicion := 280 } }

/-- An all-zeros noise stream, used to instantiate closed statements. -/
def gaussCero : ℕ → ℕ → ℝ := fun _ _ => 0

/-- A winter day at the irradiance floor with a cold ambient temperature:
all values satisfy the climate generator's output guarantees (irradiance
clipped to [100, 950], humidity clipped to [30, 95], wind floored at 0.5,
Kelvin = Celsius + 273.15; the ambient temperature itself is Gaussian and
unclamped). -/
def filaFria : ClimaRow :=
  { mes := 1, dia := 15, diaDelAno := 14, radiacion_Wm2 := 100,
    temp_ambiente_C := -20, temp_ambiente_K := 253.15, humedad_relativa := 50,
    presion_vapor_Pa := 100, velocidad_viento := 0.5 }

/-- A mild early-summer day used to instantiate universally quantified
theorems at a concrete climate record. -/
def filaTestigo : ClimaRow :=
  { mes := 6, dia := 1, diaDelAno := 152, radiacion_Wm2 := 700,
    temp_ambiente_C := 25, temp_ambiente_K := 298.15, humedad_relativa := 50,
    presion_vapor_Pa := 1000, velocidad_viento := 2 }

/-- A daily result row with the given month and production and zeros
elsewhere; a fixture for instantiating aggregation statements. -/
def filaPrueba (m : ℕ) (pr : ℝ) : ResultRow :=
  { mes := m, dia := 1, diaDelAno := 0, radiacion_Wm2 := 0, temp_ambiente_C := 0,
    temp_ambiente_K := 0, humedad_relativa := 0, presion_vapor_Pa := 0,
    velocidad_viento := 0, temp_vidrio_K := 0, temp_agua_K := 0, temp_base_K := 0,
    temp_agua_C := 0, temp_vidrio_C := 0, temp_base_C := 0, h_conv_ext := 0,
    perdida_conv_vidrio := 0, temp_cielo_K := 0, perdida_rad_vidrio := 0,
    perdida_conv_paredes := 0, perdida_conduccion := 0, perdida_total := 0,
    energia_solar := 0, energia_perdida := 0, energia_util := 0,
    energia_calentamiento := 0, energia_evaporacion := 0, masa_evaporada := 0,
    produccion_litros := pr, GOR := 0, eficiencia_termica := 0 }

/-- Default row used with `List.getD` when indexing the result table. -/
def filaDefecto : ResultRow := filaPrueba 1 0

/-- Fixture list for instantiating the aggregation statements: one January
day producing 10 litres and one July day producing 5 litres. -/
def listaPrueba : List ResultRow := [filaPrueba 1 10, filaPrueba 7 5]

/-! Helper lemmas evaluating the derived parameters of the default
configuration. -/

lemma dp_area_tapa : defaultParametros.area_tapa = 0.1125 := by
  norm_num [defaultParametros, mkParametros, defaultConfig]

lemma dp_area_captacion : defaultParametros.area_captacion = 0.1125 := by
  norm_num [defaultParametros, mkParametros, defaultConfig]

lemma dp_area_paredes : defaultParametros.area_paredes = 0.42 := by
  norm_num [defaultParametros, mkParametros, defaultConfig]

lemma dp_area_total : defaultParametros.area_total = 0.645 := by
  norm_num [defaultParametros, mkParametros, defaultConfig]

lemma dp_absorptividad : defaultParametros.absorptividad = 0.9 := by
  norm_num [defaultParametros, mkParametros, defaultConfig]

lemma dp_emisividad : defaultParametros.emisividad = 0.95 := by
  norm_num [defaultParametros, mkParametros, defaultConfig]

lemma dp_sigma : defaultParametros.sigma = 5.67e-8 := by
  norm_num [defaultParametros, mkParametros, defaultConfig]

lemma dp_masa_agua : defaultParametros.masa_agua = 2 := by
  norm_num [defaultParametros, mkParametros, defaultConfig]

lemma dp_cp_agua : defaultParametros.cp_agua = 4186 := by
  norm_num [defaultParametros, mkParametros, defaultConfig]

lemma dp_temp_inicial : defaultParametros.temp_inicial = 293 := by
  norm_num [defaultParametros, mkParametros, defaultConfig]

lemma dp_segundos : defaultParametros.segundos_radiacion_util = 21600 := by
  norm_num [defaultParametros, mkParametros, defaultConfig]

lemma dp_h_conveccion_natural : defaultParametros.h_conveccion_natural = 5 := by
  norm_num [defaultParametros, mkParametros, defaultConfig]

lemma dp_conductividad : defaultParametros.conductividad_material = 205 := by
  show lookupD defaultConfig.conductividades_termicas "aluminio" 205 = 205
  rfl

lemma dp_R_conduccion : defaultParametros.R_conduccion = 0.0025 / (205 * 0.42) := by
  show (0.0025 : ℝ) / (lookupD defaultConfig.conductividades_termicas "aluminio" 205 *
      (2 * (0.45 + 0.25) * 0.30)) = 0.0025 / (205 * 0.42)
  rw [show lookupD defaultConfig.conductividades_termicas "aluminio" 205 = 205 from rfl]
  norm_num

lemma dp_R_aislamiento : defaultParametros.R_aislamiento = 0.02 / (0.04 * 0.42) := by
  norm_num [defaultParametros, mkParametros, defaultConfig]

lemma dp_cos_angulo : defaultParametros.cos_angulo = Real.sqrt 3 / 2 := by
  have h : defaultParametros.cos_angulo = Real.cos (30 * Real.pi / 180) := by
    norm_num [defaultParametros, mkParametros, defaultConfig]
  rw [h, show (30 : ℝ) * Real.pi / 180 = Real.pi / 6 by ring, Real.cos_pi_div_six]

lemma dp_cos_pos : 0 < defaultParametros.cos_angulo := by
  rw [dp_cos_angulo]
  positivity

lemma dp_cos_le_one : defaultParametros.cos_angulo ≤ 1 := by
  have h : defaultParametros.cos_angulo = Real.cos (30 * Real.pi / 180) := by
    norm_num [defaultParametros, mkParametros, defaultConfig]
  rw [h]
  exact Real.cos_le_one _

lemma dp_R_total_pos : 0 < R_total defaultParametros := by
  rw [R_total, dp_R_conduccion, dp_R_aislamiento, dp_area_tapa, dp_h_conveccion_natural,
    dp_area_total]
  norm_num

/-- Claim C10: the thermal model's temperature computation does not mutate
the climate series it receives.  `calcular_temperatura_sistema` works on
`datos_climaticos.copy()` and returns the extended copy, so projecting the
returned table back onto the climate columns gives back the input table
unchanged, field by field and row by row. -/
theorem temperatura_no_muta_clima (l : List ClimaRow) :
    (calcularTemperaturaSistema l).map (fun r => r.toClimaRow) = l := by
  induction l with
  | nil => rfl
  | cons c t ih => simpa [calcularTemperaturaSistema] using ih

/-- Claim C9: the applied system efficiency is the product of the band value
selected by that day's irradiance over the four named ranges with the
ambient-temperature scaling factor `clip((ambientC + 10) / 40, 0.5, 1.2)`,
and the scaling factor always lies in [0.5, 1.2]. -/
theorem eficiencia_bandas (cfg : Config) (c : ClimaRow) :
    eficienciaSistema (mkParametros cfg) c =
      (if 800 ≤ c.radiacion_Wm2 then 0.85
        else if 600 ≤ c.radiacion_Wm2 then 0.65
        else if 400 ≤ c.radiacion_Wm2 then 0.45
        else 0.25) * npClip ((c.temp_ambiente_C + 10) / 40) 0.5 1.2 ∧
    0.5 ≤ npClip ((c.temp_ambiente_C + 10) / 40) 0.5 1.2 ∧
    npClip ((c.temp_ambiente_C + 10) / 40) 0.5 1.2 ≤ 1.2 := by
  refine ⟨?_, ?_, min_le_right _ _⟩
  · simp only [eficienciaSistema, eficienciaBanda, factorTemp, mkParametros]
  · exact le_min (le_max_right _ _) (by norm_num)

/-- Claim C3: for every climate record, the evaporated mass computed by the
thermal model is non-negative, never exceeds a quarter of the configured
water mass, and any value below the 0.001 kg noise floor is set to exactly
zero (so the result is either 0 or at least 0.001). -/
theorem masa_evaporada_acotada (cfg : Config) (c : ClimaRow)
    (hm : 0 ≤ cfg.condiciones_operacion.masa_agua)
    (hL : 0 < cfg.propiedades_agua.calor_latente_vaporizacion) :
    0 ≤ masaEvaporada (mkParametros cfg) c ∧
    masaEvaporada (mkParametros cfg) c ≤ 0.25 * (mkParametros cfg).masa_agua ∧
    (masaEvaporada (mkParametros cfg) c = 0 ∨
      0.001 ≤ masaEvaporada (mkParametros cfg) c) := by
  set p := mkParametros cfg with hp
  have hmp : 0 ≤ p.masa_agua := hm
  have hLp : 0 < p.calor_latente_vaporizacion := hL
  have hE : 0 ≤ energiaEvaporacionDia p c := le_max_left 0 _
  have hteo : 0 ≤ masaEvaporadaTeorica p c := div_nonneg hE hLp.le
  have hbanda : 0 ≤ eficienciaBanda p c := by
    rw [eficienciaBanda]
    have ha : p.factor_alto = 0.85 := rfl
    have hb : p.factor_medio = 0.65 := rfl
    have hc : p.factor_bajo = 0.45 := rfl
    have hd : p.factor_minimo = 0.25 := rfl
    split_ifs <;> norm_num [ha, hb, hc, hd]
  have hfac : 0 ≤ factorTemp c := by
    refine le_min ?_ (by norm_num)
    exact le_trans (by norm_num) (le_max_right _ _)
  have heff : 0 ≤ eficienciaSistema p c := mul_nonneg hbanda hfac
  have hcap0 : 0 ≤ masaEvaporadaCap p c :=
    le_min (mul_nonneg hteo heff) (by nlinarith)
  have hcapM : masaEvaporadaCap p c ≤ 0.25 * p.masa_agua := by
    calc masaEvaporadaCap p c ≤ p.masa_agua * 0.25 := min_le_right _ _
    _ = 0.25 * p.masa_agua := by ring
  rw [masaEvaporada]
  by_cases h : masaEvaporadaCap p c < 0.001
  · rw [if_pos h]
    exact ⟨le_refl 0, by nlinarith, Or.inl rfl⟩
  · rw [if_neg h]
    exact ⟨hcap0, hcapM, Or.inr (le_of_not_lt h)⟩

/-- Witness for C3 at the default configuration and a concrete summer day. -/
theorem masa_evaporada_acotada_witness :
    0 ≤ masaEvaporada (mkParametros defaultConfig) filaTestigo ∧
    masaEvaporada (mkParametros defaultConfig) filaTestigo ≤
      0.25 * (mkParametros defaultConfig).masa_agua ∧
    (masaEvaporada (mkParametros defaultConfig) filaTestigo = 0 ∨
      0.001 ≤ masaEvaporada (mkParametros defaultConfig) filaTestigo) :=
  masa_evaporada_acotada defaultConfig filaTestigo
    (by norm_num [defaultConfig]) (by norm_num [defaultConfig])

lemma generar_sur_error (g : ℕ → ℕ → ℝ) :
    generarDatosAnuales g (mkParametros configSur) =
      Except.error
        ("UnboundLocalError: local variable humedad_base referenced before assignment") := by
  rw [generarDatosAnuales, if_neg]
  rw [show pyLower (mkParametros configSur).hemisferio = "sur" from rfl]
  decide

/-- Claim C4 (code bug): with the hemisphere set to 'sur' — a value the
configuration file documents as legal — the climate generator does not
return the 365-day series: line 291 reads `humedad_base`, a local that is
only assigned in the 'norte' branch, so Python raises `UnboundLocalError`. -/
theorem generar_sur_lanza_error :
    generarDatosAnuales gaussCero (mkParametros configSur) =
      Except.error
        ("UnboundLocalError: local variable humedad_base referenced before assignment") :=
  generar_sur_error gaussCero

/-- Counterexample to claim C2 as stated: for the valid southern-hemisphere
configuration the annual simulation entry point propagates the climate
generator's `UnboundLocalError` instead of returning 365 records. -/
theorem simular_sur_no_devuelve_tabla :
    simularDesalinizadorAnual gaussCero 0 (mkParametros configSur) =
      Except.error
        ("UnboundLocalError: local variable humedad_base referenced before assignment") := by
  simp [simularDesalinizadorAnual, generar_sur_error]

set_option maxHeartbeats 1000000 in
set_option maxRecDepth 100000 in
lemma mesDia2024_gregoriano :
    ∀ k, k < 365 → isGregorianDate2024 k (mesDia2024 k).1 (mesDia2024 k).2 := by
  decide

lemma filas_resultado_campos (gauss : ℕ → ℕ → ℝ) (p : Parametros) (k : ℕ)
    (hk : k < 365) :
    ((calcularMasaEvaporada p (calcularPerdidasTermicas p (calcularTemperaturaSistema
        ((List.range 365).map (mkClimaRow gauss p))))).getD k filaDefecto).mes =
      (mesDia2024 k).1 ∧
    ((calcularMasaEvaporada p (calcularPerdidasTermicas p (calcularTemperaturaSistema
        ((List.range 365).map (mkClimaRow gauss p))))).getD k filaDefecto).dia =
      (mesDia2024 k).2 ∧
    ((calcularMasaEvaporada p (calcularPerdidasTermicas p (calcularTemperaturaSistema
        ((List.range 365).map (mkClimaRow gauss p))))).getD k filaDefecto).diaDelAno =
      k := by
  simp [calcularMasaEvaporada, calcularPerdidasTermicas, calcularTemperaturaSistema,
    List.getD_eq_getElem?_getD, List.getElem?_map, List.getElem?_range, hk, mkClimaRow]

/-- Claim C2 (amended: restricted to configurations whose hemisphere
lowercases to 'norte'; the southern branch crashes, see C4): the annual
simulation returns exactly 365 daily records, one per consecutive calendar
day starting January 1, whose `mes` and `dia` fields match the Gregorian
calendar of the simulated year 2024 (a leap year), with months in 1..12. -/
theorem simular_devuelve_365_dias_gregorianos (gauss : ℕ → ℕ → ℝ) (rng : ℕ)
    (p : Parametros) (h : pyLower p.hemisferio = "norte") :
    ∃ filas, simularDesalinizadorAnual gauss rng p = Except.ok filas ∧
      filas.length = 365 ∧
      ∀ k, k < 365 →
        (filas.getD k filaDefecto).diaDelAno = k ∧
        isGregorianDate2024 k (filas.getD k filaDefecto).mes
          (filas.getD k filaDefecto).dia := by
  have hgen : generarDatosAnuales gauss p =
      Except.ok ((List.range 365).map (mkClimaRow gauss p)) := by
    rw [generarDatosAnuales, if_pos h]
  refine ⟨calcularMasaEvaporada p (calcularPerdidasTermicas p (calcularTemperaturaSistema
    ((List.range 365).map (mkClimaRow gauss p)))),
    by simp [simularDesalinizadorAnual, hgen], ?_, ?_⟩
  · simp [calcularMasaEvaporada, calcularPerdidasTermicas, calcularTemperaturaSistema]
  · intro k hk
    obtain ⟨hmes, hdia, hdoy⟩ := filas_resultado_campos gauss p k hk
    refine ⟨hdoy, ?_⟩
    rw [hmes, hdia]
    exact mesDia2024_gregoriano k hk

/-- Witness for C2 at the default parameters and the all-zeros noise
stream. -/
theorem simular_devuelve_365_dias_gregorianos_witness :
    ∃ filas, simularDesalinizadorAnual gaussCero 0 defaultParametros = Except.ok filas ∧
      filas.length = 365 ∧
      ∀ k, k < 365 →
        (filas.getD k filaDefecto).diaDelAno = k ∧
        isGregorianDate2024 k (filas.getD k filaDefecto).mes
          (filas.getD k filaDefecto).dia :=
  simular_devuelve_365_dias_gregorianos gaussCero 0 defaultParametros rfl

/-- Claim C5: rerunning the simulation with the same seed and configuration
yields identical result tables.  `ModeloClimatico.__init__` resets the
global NumPy generator with `np.random.seed(42)` on every run, so the
result does not depend on the generator state `rng` the run starts from:
two successive or separate runs produce equal tables, every field of every
record included. -/
theorem simulacion_determinista (gauss : ℕ → ℕ → ℝ) (r1 r2 : ℕ) (p : Parametros) :
    simularDesalinizadorAnual gauss r1 p = simularDesalinizadorAnual gauss r2 p := by
  cases h : generarDatosAnuales gauss p <;> simp [simularDesalinizadorAnual, h]

/-- Counterexample to claim C8 as stated: a configuration with a negative
length and an inverted temperature pair is accepted silently — the
constructor returns derived parameters and raises nothing. -/
theorem init_acepta_config_no_fisica :
    badConfig.dimensiones.largo < 0 ∧
    badConfig.propiedades_agua.temp_ebullicion < badConfig.propiedades_agua.temp_inicial ∧
    initParametros badConfig = Except.ok (mkParametros badConfig) := by
  refine ⟨by norm_num [badConfig, defaultConfig], by norm_num [badConfig, defaultConfig], ?_⟩
  have h1 : ¬(1000 * (badConfig.dimensiones.largo * badConfig.dimensiones.ancho) = (0 : ℝ)) := by
    norm_num [badConfig, defaultConfig]
  have h2 : ¬(lookupD badConfig.conductividades_termicas
      badConfig.propiedades_termicas.material_caja 205 *
      (2 * (badConfig.dimensiones.largo + badConfig.dimensiones.ancho) *
        badConfig.dimensiones.altura) = (0 : ℝ)) := by
    rw [show lookupD badConfig.conductividades_termicas
        badConfig.propiedades_termicas.material_caja 205 = 205 from rfl]
    norm_num [badConfig, defaultConfig]
  have h3 : ¬((0.04 : ℝ) * (2 * (badConfig.dimensiones.largo + badConfig.dimensiones.ancho) *
      badConfig.dimensiones.altura) = 0) := by
    norm_num [badConfig, defaultConfig]
  have h4 : ¬(badConfig.condiciones_operacion.masa_agua = (0 : ℝ)) := by
    norm_num [badConfig, defaultConfig]
  rw [initParametros, if_neg h1, if_neg h2, if_neg h3, if_neg h4]

/-- Claim C8 (amended): the constructor never raises a configuration
validation error.  For every configuration whose four division denominators
are nonzero — including non-physical ones with negative dimensions or an
inverted temperature pair — construction succeeds and silently returns the
derived parameters; the only possible failures are `ZeroDivisionError`s
from exactly-zero denominators, not validation. -/
theorem init_sin_validacion (c : Config)
    (h1 : 1000 * (c.dimensiones.largo * c.dimensiones.ancho) ≠ 0)
    (h2 : lookupD c.conductividades_termicas c.propiedades_termicas.material_caja 205 *
      (2 * (c.dimensiones.largo + c.dimensiones.ancho) * c.dimensiones.altura) ≠ 0)
    (h3 : (0.04 : ℝ) * (2 * (c.dimensiones.largo + c.dimensiones.ancho) *
      c.dimensiones.altura) ≠ 0)
    (h4 : c.condiciones_operacion.masa_agua ≠ 0) :
    initParametros c = Except.ok (mkParametros c) := by
  rw [initParametros, if_neg h1, if_neg h2, if_neg h3, if_neg h4]

/-- Witness for C8 at the non-physical configuration. -/
theorem init_sin_validacion_witness :
    initParametros badConfig = Except.ok (mkParametros badConfig) :=
  init_sin_validacion badConfig
    (by norm_num [badConfig, defaultConfig])
    (by
      rw [show lookupD badConfig.conductividades_termicas
          badConfig.propiedades_termicas.material_caja 205 = 205 from rfl]
      norm_num [badConfig, defaultConfig])
    (by norm_num [badConfig, defaultConfig])
    (by norm_num [badConfig, defaultConfig])

/-- Counterexample to claim C1 as stated: the GOR computed by the thermal
model is not confined to [0, 1] on the climate records the generator can
produce.  On a day at the irradiance floor (100 W/m², within the clip
range) with ambient -20 °C (the generator's ambient temperature is Gaussian
and unclamped) and wind at the 0.5 m/s floor, the heating energy is
negative, the evaporation energy is not capped at the solar energy, and the
GOR exceeds 1. -/
theorem gor_supera_uno_en_dia_frio :
    (100 ≤ filaFria.radiacion_Wm2 ∧ filaFria.radiacion_Wm2 ≤ 950 ∧
      30 ≤ filaFria.humedad_relativa ∧ filaFria.humedad_relativa ≤ 95 ∧
      0.5 ≤ filaFria.velocidad_viento ∧
      filaFria.temp_ambiente_K = filaFria.temp_ambiente_C + 273.15) ∧
    1 < gorDia defaultParametros filaFria := by
  refine ⟨by norm_num [filaFria], ?_⟩
  have hs_eq : energiaSolar defaultParametros filaFria =
      218700 * defaultParametros.cos_angulo := by
    rw [energiaSolar, dp_absorptividad, dp_area_captacion, dp_segundos,
      show filaFria.radiacion_Wm2 = 100 from rfl]
    ring
  have hs_pos : 0 < energiaSolar defaultParametros filaFria := by
    rw [hs_eq]
    exact mul_pos (by norm_num) dp_cos_pos
  have hs_le : energiaSolar defaultParametros filaFria ≤ 218700 := by
    rw [hs_eq]
    nlinarith [dp_cos_le_one, dp_cos_pos]
  have hcal : energiaCalentamientoDia defaultParametros filaFria = -266648.2 := by
    rw [energiaCalentamientoDia, dp_masa_agua, dp_cp_agua, dp_temp_inicial, tempAguaK,
      show filaFria.temp_ambiente_K = 253.15 from rfl,
      show filaFria.radiacion_Wm2 = 100 from rfl]
    norm_num
  have hm_le : min (energiaPerdida defaultParametros filaFria)
      (0.65 * energiaSolar defaultParametros filaFria) ≤
      0.65 * energiaSolar defaultParametros filaFria := min_le_right _ _
  have hutil : energiaUtil defaultParametros filaFria =
      energiaSolar defaultParametros filaFria -
        min (energiaPerdida defaultParametros filaFria)
          (0.65 * energiaSolar defaultParametros filaFria) := by
    rw [energiaUtil]
    apply max_eq_right
    nlinarith [hm_le, hs_pos]
  have hevap : energiaEvaporacionDia defaultParametros filaFria =
      energiaUtil defaultParametros filaFria -
        energiaCalentamientoDia defaultParametros filaFria := by
    rw [energiaEvaporacionDia]
    apply max_eq_right
    rw [hutil, hcal]
    nlinarith [hm_le, hs_pos, hs_le]
  rw [gorDia, if_pos hs_pos]
  rw [hevap, hutil, hcal]
  rw [lt_div_iff₀ hs_pos]
  nlinarith [hm_le, hs_le, hs_pos]

/-- Claim C1 (amended): under the generator's output guarantees alone
(irradiance at least the 100 W/m² clip floor, wind at least the 0.5 m/s
floor, positive ambient Kelvin), GOR is non-negative and thermal efficiency
lies in [0, 1], unconditionally; GOR additionally stays at most 1 on every
day whose computed water temperature is at least the configured initial
temperature (equivalently, whose heating energy is non-negative).  On
colder days the heating energy is negative and GOR can exceed 1 (see the
counterexample): the code caps useful energy, but not evaporation energy,
at the solar energy. -/
theorem gor_eficiencia_en_rango (c : ClimaRow)
    (hrad : 100 ≤ c.radiacion_Wm2)
    (hK : 0 < c.temp_ambiente_K)
    (hv : 0.5 ≤ c.velocidad_viento) :
    0 ≤ gorDia defaultParametros c ∧
    0 ≤ eficienciaTermicaDia defaultParametros c ∧
    eficienciaTermicaDia defaultParametros c ≤ 1 ∧
    (defaultParametros.temp_inicial ≤ tempAguaK c →
      gorDia defaultParametros c ≤ 1) := by
  have hrad0 : (0 : ℝ) ≤ c.radiacion_Wm2 := by linarith
  have hs_pos : 0 < energiaSolar defaultParametros c := by
    rw [energiaSolar, dp_absorptividad, dp_area_captacion, dp_segundos]
    have h1 : (0 : ℝ) < c.radiacion_Wm2 := by linarith
    exact mul_pos (mul_pos (mul_pos (mul_pos h1 dp_cos_pos) (by norm_num)) (by norm_num))
      (by norm_num)
  have hh : (0 : ℝ) ≤ 5.7 + 3.8 * c.velocidad_viento := by linarith
  have h76 : (7.6 : ℝ) ≤ 5.7 + 3.8 * c.velocidad_viento := by linarith
  have h1 : 0.3 ≤ perdidaConvVidrio defaultParametros c := by
    rw [perdidaConvVidrio, tempVidrioK, tempAguaK, dp_area_tapa, hConvExt]
    nlinarith [mul_nonneg (show (0 : ℝ) ≤ 5.7 + 3.8 * c.velocidad_viento - 7.6 by linarith)
      (show (0 : ℝ) ≤ c.radiacion_Wm2 - 100 by linarith), hv, hrad]
  have hrv : -0.000002 ≤ perdidaRadVidrio defaultParametros c := by
    rw [perdidaRadVidrio, dp_emisividad, dp_sigma, dp_area_tapa]
    by_cases h6 : 6 ≤ c.temp_ambiente_K
    · have htC : 0 ≤ tempCieloK c := by rw [tempCieloK]; linarith
      have htOrd : tempCieloK c ≤ tempVidrioK c := by
        rw [tempCieloK, tempVidrioK, tempAguaK]; nlinarith [hrad0]
      have hpow : tempCieloK c ^ 4 ≤ tempVidrioK c ^ 4 := pow_le_pow_left₀ htC htOrd 4
      nlinarith [hpow]
    · push_neg at h6
      have hsq : (c.temp_ambiente_K - 6) ^ 2 ≤ 36 := by
        nlinarith [mul_pos hK (show (0 : ℝ) < 6 - c.temp_ambiente_K by linarith)]
      have hq : (c.temp_ambiente_K - 6) ^ 4 ≤ 1296 := by
        nlinarith [hsq, sq_nonneg (c.temp_ambiente_K - 6)]
      have hv4 : 0 ≤ tempVidrioK c ^ 4 := by positivity
      rw [tempCieloK]
      nlinarith [hq, hv4]
  have h3 : 0 ≤ perdidaConvParedes defaultParametros c := by
    rw [perdidaConvParedes, tempAguaK, dp_area_paredes, hConvExt]
    nlinarith [mul_nonneg hh hrad0]
  have hcond : 0 ≤ perdidaConduccion defaultParametros c := by
    rw [perdidaConduccion, tempAguaK]
    apply div_nonneg
    · nlinarith [hrad0]
    · nlinarith [dp_R_total_pos]
  have hperd : 0 ≤ perdidaTotal defaultParametros c := by
    rw [perdidaTotal]; linarith
  have hlost : 0 ≤ energiaPerdida defaultParametros c := by
    rw [energiaPerdida, dp_segundos]
    exact mul_nonneg hperd (by norm_num)
  have hm0 : 0 ≤ min (energiaPerdida defaultParametros c)
      (0.65 * energiaSolar defaultParametros c) :=
    le_min hlost (by linarith)
  have hu0 : 0 ≤ energiaUtil defaultParametros c := le_max_left 0 _
  have huS : energiaUtil defaultParametros c ≤ energiaSolar defaultParametros c := by
    rw [energiaUtil]
    exact max_le hs_pos.le (by linarith)
  have hevap0 : 0 ≤ energiaEvaporacionDia defaultParametros c := le_max_left 0 _
  simp only [gorDia, eficienciaTermicaDia, if_pos hs_pos]
  refine ⟨div_nonneg hevap0 hs_pos.le, div_nonneg hu0 hs_pos.le,
    (div_le_one hs_pos).mpr huS, ?_⟩
  intro hcal
  have hcal0 : 0 ≤ energiaCalentamientoDia defaultParametros c := by
    rw [energiaCalentamientoDia, dp_masa_agua, dp_cp_agua, dp_temp_inicial]
    rw [dp_temp_inicial] at hcal
    nlinarith [hcal]
  have hevapS : energiaEvaporacionDia defaultParametros c ≤
      energiaSolar defaultParametros c := by
    rw [energiaEvaporacionDia]
    exact max_le hs_pos.le (by linarith)
  exact (div_le_one hs_pos).mpr hevapS

/-- Witness for C1 at the default parameters and a mild summer day, the
conditional GOR bound included (its water-temperature premise holds there). -/
theorem gor_eficiencia_en_rango_witness :
    0 ≤ gorDia defaultParametros filaTestigo ∧
    0 ≤ eficienciaTermicaDia defaultParametros filaTestigo ∧
    eficienciaTermicaDia defaultParametros filaTestigo ≤ 1 ∧
    gorDia defaultParametros filaTestigo ≤ 1 := by
  have h := gor_eficiencia_en_rango filaTestigo (by norm_num [filaTestigo])
    (by norm_num [filaTestigo]) (by norm_num [filaTestigo])
  exact ⟨h.1, h.2.1, h.2.2.1,
    h.2.2.2 (by rw [dp_temp_inicial, tempAguaK]; norm_num [filaTestigo])⟩

lemma prodMes_cons (r : ResultRow) (t : List ResultRow) (m : ℕ) :
    prodMes (r :: t) m =
      (if r.mes = m then r.produccion_litros else 0) + prodMes t m := by
  by_cases h : r.mes = m <;> simp [prodMes, List.filter_cons, h]

lemma sum_prodMes (l : List ResultRow) (M : Finset ℕ) (h : ∀ r ∈ l, r.mes ∈ M) :
    ∑ m in M, prodMes l m = (l.map (fun r => r.produccion_litros)).sum := by
  induction l with
  | nil => simp [prodMes]
  | cons r t ih =>
    have hr : r.mes ∈ M := h r (List.mem_cons_self r t)
    have ht : ∀ x ∈ t, x.mes ∈ M := fun x hx => h x (List.mem_cons_of_mem r hx)
    calc ∑ m in M, prodMes (r :: t) m
        = ∑ m in M, ((if r.mes = m then r.produccion_litros else 0) + prodMes t m) :=
          Finset.sum_congr rfl (fun m _ => prodMes_cons r t m)
      _ = (∑ m in M, if r.mes = m then r.produccion_litros else 0) +
          ∑ m in M, prodMes t m := Finset.sum_add_distrib
      _ = r.produccion_litros + (t.map (fun x => x.produccion_litros)).sum := by
          rw [Finset.sum_ite_eq M r.mes, if_pos hr, ih ht]
      _ = ((r :: t).map (fun x => x.produccion_litros)).sum := by simp

lemma estacion_mem_base : ∀ m, m < 13 → 1 ≤ m → estacionOf m ∈ estacionesBase := by
  decide

/-- Claim C6: on any daily result series with calendar months (1..12), the
seasonal aggregation yields exactly the four named seasons — any absent
season is backfilled with a zero-valued row — and the production summed
over the four seasonal rows equals the production summed over all daily
records.  In this real-number embedding the conservation is exact (the
floating-point tolerance of the claim is subsumed by exact arithmetic). -/
theorem estaciones_completas_y_conservacion (l : List ResultRow)
    (h : ∀ r ∈ l, 1 ≤ r.mes ∧ r.mes ≤ 12) :
    estacionesDF l = estacionesBase.toFinset ∧
    (estacionesDF l).card = 4 ∧
    ∑ s in estacionesDF l, prodEstacion l s =
      (l.map (fun r => r.produccion_litros)).sum := by
  have hsub : (mesesDF l).image estacionOf ⊆ estacionesBase.toFinset := by
    intro s hs
    rw [Finset.mem_image] at hs
    obtain ⟨m, hm, rfl⟩ := hs
    rw [mesesDF, List.mem_toFinset, List.mem_map] at hm
    obtain ⟨r, hr, rfl⟩ := hm
    obtain ⟨h1, h2⟩ := h r hr
    rw [List.mem_toFinset]
    exact estacion_mem_base r.mes (by omega) h1
  have heq : estacionesDF l = estacionesBase.toFinset := by
    rw [estacionesDF, Finset.union_eq_right.mpr hsub]
  refine ⟨heq, by rw [heq]; decide, ?_⟩
  have hmaps : ∀ m ∈ mesesDF l, estacionOf m ∈ estacionesDF l := by
    intro m hm
    exact Finset.mem_union_left _ (Finset.mem_image_of_mem _ hm)
  have hfib := Finset.sum_fiberwise_of_maps_to hmaps (fun m => prodMes l m)
  rw [show (∑ s in estacionesDF l, prodEstacion l s) =
      ∑ s in estacionesDF l, ∑ m in (mesesDF l).filter (fun m => estacionOf m = s),
        prodMes l m from rfl, hfib]
  exact sum_prodMes l (mesesDF l)
    (fun r hr => by rw [mesesDF, List.mem_toFinset, List.mem_map]; exact ⟨r, hr, rfl⟩)

/-- Witness for C6 on the two-day fixture series. -/
theorem estaciones_completas_y_conservacion_witness :
    estacionesDF listaPrueba = estacionesBase.toFinset ∧
    (estacionesDF listaPrueba).card = 4 ∧
    ∑ s in estacionesDF listaPrueba, prodEstacion listaPrueba s =
      (listaPrueba.map (fun r => r.produccion_litros)).sum :=
  estaciones_completas_y_conservacion listaPrueba (by
    intro r hr
    simp only [listaPrueba, List.mem_cons, List.not_mem_nil, or_false] at hr
    rcases hr with rfl | rfl <;> simp [filaPrueba])

lemma list_cauchy_schwarz (l : List (ℝ × ℝ)) :
    (l.map (fun q => q.1 * q.2)).sum ^ 2 ≤
      (l.map (fun q => q.1 ^ 2)).sum * (l.map (fun q => q.2 ^ 2)).sum := by
  induction l with
  | nil => simp
  | cons q t ih =>
    obtain ⟨a, b⟩ := q
    simp only [List.map_cons, List.sum_cons]
    have hA : 0 ≤ (t.map (fun q => q.1 ^ 2)).sum := by
      apply List.sum_nonneg
      intro x hx
      rw [List.mem_map] at hx
      obtain ⟨y, hy, rfl⟩ := hx
      positivity
    have hC : 0 ≤ (t.map (fun q => q.2 ^ 2)).sum := by
      apply List.sum_nonneg
      intro x hx
      rw [List.mem_map] at hx
      obtain ⟨y, hy, rfl⟩ := hx
      positivity
    set A := (t.map (fun q => q.1 ^ 2)).sum with hAdef
    set B := (t.map (fun q => q.1 * q.2)).sum with hBdef
    set C := (t.map (fun q => q.2 ^ 2)).sum with hCdef
    by_cases hCz : C = 0
    · have hB2 : B ^ 2 ≤ 0 := by rw [← mul_zero A, ← hCz]; exact ih
      have hB : B = 0 := by nlinarith [sq_nonneg B]
      rw [hCz, hB]
      nlinarith [sq_nonneg b, hA]
    · have hCpos : 0 < C := hC.lt_of_ne (Ne.symm hCz)
      nlinarith [sq_nonneg (a * C - b * B), ih, hCpos, sq_nonneg b,
        mul_nonneg (sq_nonneg b) (sub_nonneg.mpr ih)]

lemma sumaCuadrados_nonneg (l : List ℝ) : 0 ≤ sumaCuadrados l := by
  apply List.sum_nonneg
  intro x hx
  rw [List.mem_map] at hx
  obtain ⟨y, hy, rfl⟩ := hx
  positivity

lemma pearson_cauchy_schwarz (xs ys : List ℝ) (hlen : xs.length = ys.length) :
    sumaProductos xs ys ^ 2 ≤ sumaCuadrados xs * sumaCuadrados ys := by
  have hlen2 : (centrada xs).length = (centrada ys).length := by
    simp [centrada, hlen]
  have hfst : ((centrada xs).zip (centrada ys)).map Prod.fst = centrada xs :=
    List.map_fst_zip _ _ (le_of_eq hlen2)
  have hsnd : ((centrada xs).zip (centrada ys)).map Prod.snd = centrada ys :=
    List.map_snd_zip _ _ (le_of_eq hlen2.symm)
  have e1 : ((centrada xs).zip (centrada ys)).map (fun q => q.1 ^ 2) =
      (centrada xs).map (fun x => x ^ 2) := by
    conv_rhs => rw [← hfst, List.map_map]
    rfl
  have e2 : ((centrada xs).zip (centrada ys)).map (fun q => q.2 ^ 2) =
      (centrada ys).map (fun x => x ^ 2) := by
    conv_rhs => rw [← hsnd, List.map_map]
    rfl
  have h := list_cauchy_schwarz ((centrada xs).zip (centrada ys))
  rw [e1, e2] at h
  exact h

/-- Counterexample to claim C7 as stated: on a constant irradiance series
the Pearson correlation computed by pandas `Series.corr` is NaN (here
`none`), not 0 — the code contains no degenerate-input guard. -/
theorem pearson_constante_no_es_cero :
    pearsonCorr [1, 1, 1] [1, 2, 3] = none ∧
    pearsonCorr [1, 1, 1] [1, 2, 3] ≠ some 0 := by
  have h : sumaCuadrados [(1 : ℝ), 1, 1] = 0 := by
    norm_num [sumaCuadrados, centrada, listMean]
  constructor <;> simp [pearsonCorr, h]

/-- Claim C7 (amended): whenever the Pearson correlation of two equally
long series is defined (neither variance vanishes — otherwise pandas
propagates NaN rather than returning 0), its value lies in [-1, 1]. -/
theorem pearson_en_rango (xs ys : List ℝ) (r : ℝ)
    (hlen : xs.length = ys.length)
    (h : pearsonCorr xs ys = some r) :
    -1 ≤ r ∧ r ≤ 1 := by
  rw [pearsonCorr] at h
  by_cases hz : sumaCuadrados xs = 0 ∨ sumaCuadrados ys = 0
  · rw [if_pos hz] at h
    exact absurd h (by simp)
  · rw [if_neg hz] at h
    push_neg at hz
    obtain ⟨hx, hy⟩ := hz
    have hx0 : 0 < sumaCuadrados xs := (sumaCuadrados_nonneg xs).lt_of_ne (Ne.symm hx)
    have hy0 : 0 < sumaCuadrados ys := (sumaCuadrados_nonneg ys).lt_of_ne (Ne.symm hy)
    have hcs := pearson_cauchy_schwarz xs ys hlen
    obtain rfl : sumaProductos xs ys / Real.sqrt (sumaCuadrados xs * sumaCuadrados ys) = r :=
      Option.some.inj h
    have hSpos : 0 < sumaCuadrados xs * sumaCuadrados ys := mul_pos hx0 hy0
    have hsqrt_pos : 0 < Real.sqrt (sumaCuadrados xs * sumaCuadrados ys) :=
      Real.sqrt_pos.mpr hSpos
    have habs : |sumaProductos xs ys| ≤ Real.sqrt (sumaCuadrados xs * sumaCuadrados ys) := by
      rw [← Real.sqrt_sq_eq_abs]
      exact Real.sqrt_le_sqrt hcs
    obtain ⟨hlow, hhigh⟩ := abs_le.mp habs
    constructor
    · rw [le_div_iff₀ hsqrt_pos]
      linarith
    · rw [div_le_one hsqrt_pos]
      exact hhigh

/-- Witness for C7 on a two-point pair of series with correlation exactly 1. -/
theorem pearson_en_rango_witness :
    pearsonCorr [0, 1] [0, 2] = some 1 ∧ ((-1 : ℝ) ≤ 1 ∧ (1 : ℝ) ≤ 1) := by
  have h : pearsonCorr [0, 1] [0, 2] = some 1 := by
    rw [pearsonCorr, if_neg]
    · norm_num [sumaProductos, sumaCuadrados, centrada, listMean]
    · push_neg
      constructor <;> norm_num [sumaCuadrados, centrada, listMean]
  exact ⟨h, pearson_en_rango [0, 1] [0, 2] 1 rfl h⟩

end Desal
